import Mathlib

/-!
Formal model of the TAO process-shared object substrate (WitIOT/tao).

The repository ships the public and private C headers (`src/include/*.h`);
this file gives a shallow embedding in Lean of the data model declared by
those headers (server states, commands, the remote-object header, the
remote-mirror layer, the 2-D layout helpers) together with the behaviour of
the operations, and proves the specified properties about that embedding.
Machine integers (`tao_serial` = `int64_t`, `tao_shmid` = `int32_t`, `long`)
are modelled by `Int`/`Nat`; `double` command values are modelled by `ℚ`
(all the specified operations on them — sums, clamping — are exact).
-/

namespace Tao

/-- Server commands, from `tao_command` in `tao-remote-objects.h`
(values 0..7: none, reset, send, config, start, stop, abort, kill). -/
inductive Command where
  | none
  | reset
  | send
  | config
  | start
  | stop
  | abort
  | kill
deriving DecidableEq, Repr

/-- Numeric value of a `tao_command`, as fixed by the enum in
`tao-remote-objects.h`. -/
def Command.code : Command → Nat
  | .none   => 0
  | .reset  => 1
  | .send   => 2
  | .config => 3
  | .start  => 4
  | .stop   => 5
  | .abort  => 6
  | .kill   => 7

/-- Server states, from `tao_state` in `tao-remote-objects.h`
(values 0..10, in "logical ascending order"). -/
inductive State where
  | initializing
  | waiting
  | configuring
  | starting
  | working
  | stopping
  | aborting
  | error
  | resetting
  | quitting
  | unreachable
deriving DecidableEq, Repr

/-- Numeric value of a `tao_state`, as fixed by the enum in
`tao-remote-objects.h`. -/
def State.code : State → Nat
  | .initializing => 0
  | .waiting      => 1
  | .configuring  => 2
  | .starting     => 3
  | .working      => 4
  | .stopping     => 5
  | .aborting     => 6
  | .error        => 7
  | .resetting    => 8
  | .quitting     => 9
  | .unreachable  => 10

/-- `TAO_STATE_UNREACHABLE` has value 10 in `tao-remote-objects.h`. -/
def TAO_STATE_UNREACHABLE : Nat := 10

/-- `TAO_BAD_SHMID` is `(tao_shmid)-1`, from `tao-shared-memory.h`. -/
def TAO_BAD_SHMID : Int := -1

/-- The remote-object shared header, from `struct tao_remote_object` in
`tao-remote-objects-private.h` (the base `tao_shared_object` fields `size`,
`type`, `shmid` needed by the claims are inlined). -/
structure RemoteObject where
  size : Int
  type : Int
  shmid : Int
  nbufs : Int
  offset : Int
  stride : Int
  serial : Int
  state : State
  command : Command
  ncmds : Int
  owner : String

/-- Per-thread last-error record, from §7 of the specification
(`{function name, code}`). -/
structure ErrorRecord where
  func : String
  code : Int
deriving DecidableEq, Repr

/-- Modelled from the spec: the body of `tao_remote_object_is_alive` is not
in `src/` (only its declaration in `tao-remote-objects.h`).  The header doc
and §3.3 of the spec state: a boolean result, `false` if `obj` is `NULL`,
and a server is alive iff `state < unreachable`. -/
def tao_remote_object_is_alive (obj : Option RemoteObject) : Bool :=
  match obj with
  | .none => false
  | .some o => decide (o.state.code < TAO_STATE_UNREACHABLE)

/-- Double-precision value as observed through a getter: either an ordinary
(exactly representable) number, modelled by a rational, or a NaN. -/
inductive FloatVal where
  | nan
  | num (q : ℚ)
deriving DecidableEq

/-- The remote-mirror shared structure, from `struct tao_remote_mirror` in
`tao-remote-mirrors-private.h`: the base remote object followed by the
actuator count, the grid dimensions, the `[cmin, cmax]` command bounds, the
mark for the next data-frame, the actuator layout indices, and the
reference / perturbation / requested command vectors (`nacts` doubles
each). -/
structure RemoteMirror where
  base : RemoteObject
  nacts : Nat
  dims : Nat × Nat
  cmin : ℚ
  cmax : ℚ
  mark : Int
  inds : List Int
  refcmds : List ℚ
  perturb : List ℚ
  reqcmds : List ℚ

/-- Modelled from the spec: the body of `tao_remote_mirror_is_alive` is not
in `src/`; per `tao-remote-mirrors.h` it is the remote-object test applied
to the mirror's base object. -/
def tao_remote_mirror_is_alive (obj : Option RemoteMirror) : Bool :=
  tao_remote_object_is_alive (obj.map (·.base))

/-- Modelled from the spec: body of `tao_remote_object_get_size` not in
`src/`; header doc: returns the object's size, `0` for `NULL`, and leaves
the caller's last error unchanged (the error record is threaded
explicitly). -/
def tao_remote_object_get_size (obj : Option RemoteObject)
    (err : ErrorRecord) : Int × ErrorRecord :=
  (match obj with | .none => 0 | .some o => o.size, err)

/-- Modelled from the spec: body of `tao_remote_object_get_type` not in
`src/`; header doc: returns the type identifier, `0` for `NULL`, last error
unchanged. -/
def tao_remote_object_get_type (obj : Option RemoteObject)
    (err : ErrorRecord) : Int × ErrorRecord :=
  (match obj with | .none => 0 | .some o => o.type, err)

/-- Modelled from the spec: body of `tao_shared_object_get_shmid` not in
`src/`; header doc: returns the shared-memory identifier, `TAO_BAD_SHMID`
for `NULL`, last error unchanged.  (The remote object extends the shared
object, so the model takes the inlined base fields.) -/
def tao_shared_object_get_shmid (obj : Option RemoteObject)
    (err : ErrorRecord) : Int × ErrorRecord :=
  (match obj with | .none => TAO_BAD_SHMID | .some o => o.shmid, err)

/-- Modelled from the spec: body of `tao_remote_object_get_owner` not in
`src/`; header doc: returns the owner name, the empty string `""` for
`NULL`, last error unchanged. -/
def tao_remote_object_get_owner (obj : Option RemoteObject)
    (err : ErrorRecord) : String × ErrorRecord :=
  (match obj with | .none => "" | .some o => o.owner, err)

/-- Modelled from the spec: body of `tao_remote_object_get_nbufs` not in
`src/`; header doc: returns the number of output buffers, `0` for `NULL`,
last error unchanged. -/
def tao_remote_object_get_nbufs (obj : Option RemoteObject)
    (err : ErrorRecord) : Int × ErrorRecord :=
  (match obj with | .none => 0 | .some o => o.nbufs, err)

/-- Modelled from the spec: body of `tao_remote_object_get_serial` not in
`src/`; header doc: returns the serial of the last published output buffer,
`0` for `NULL`, last error unchanged. -/
def tao_remote_object_get_serial (obj : Option RemoteObject)
    (err : ErrorRecord) : Int × ErrorRecord :=
  (match obj with | .none => 0 | .some o => o.serial, err)

/-- Modelled from the spec: body of `tao_remote_object_get_ncmds` not in
`src/`; header doc: returns the number of processed commands, `0` for
`NULL`, last error unchanged. -/
def tao_remote_object_get_ncmds (obj : Option RemoteObject)
    (err : ErrorRecord) : Int × ErrorRecord :=
  (match obj with | .none => 0 | .some o => o.ncmds, err)

/-- Modelled from the spec: body of `tao_remote_object_get_state` not in
`src/`; header doc: returns the server state, `TAO_STATE_UNREACHABLE` for
`NULL`, last error unchanged. -/
def tao_remote_object_get_state (obj : Option RemoteObject)
    (err : ErrorRecord) : State × ErrorRecord :=
  (match obj with | .none => State.unreachable | .some o => o.state, err)

/-- Modelled from the spec: body of `tao_remote_mirror_get_cmin` not in
`src/`; header doc: returns the minimal actuator command, `NaN` for `NULL`,
last error unchanged. -/
def tao_remote_mirror_get_cmin (obj : Option RemoteMirror)
    (err : ErrorRecord) : FloatVal × ErrorRecord :=
  (match obj with | .none => FloatVal.nan | .some o => FloatVal.num o.cmin, err)

/-- Modelled from the spec: body of `tao_remote_mirror_get_cmax` not in
`src/`; header doc: returns the maximal actuator command, `NaN` for `NULL`,
last error unchanged. -/
def tao_remote_mirror_get_cmax (obj : Option RemoteMirror)
    (err : ErrorRecord) : FloatVal × ErrorRecord :=
  (match obj with | .none => FloatVal.nan | .some o => FloatVal.num o.cmax, err)

/-- Index of the ring slot storing the output buffer with serial `s`, from
the formula in the doc of `tao_remote_object_create` in
`tao-remote-objects.h`: buffer `i ≥ 1` lives at byte offset
`offset + ((i - 1) % nbufs) * stride`. -/
def slot_index (nbufs s : Int) : Int := (s - 1) % nbufs

/-- Byte offset, from the object header, of the ring slot storing the
output buffer with serial `s` (same source as `slot_index`). -/
def slot_offset (offset stride nbufs s : Int) : Int :=
  offset + slot_index nbufs s * stride

/-- A frame is visible to clients iff it has been published: its serial is
at least 1 and does not exceed the object's atomic `serial` (spec §3.1). -/
def frame_visible (s serial : Int) : Prop := 1 ≤ s ∧ s ≤ serial

/-- State of the cyclic output ring: the object's atomic `serial` and, for
each slot index, the serial of the frame the slot currently holds (`0` when
the slot has never been written). -/
structure RingState where
  serial : Int
  slots : Int → Int

/-- Initial ring state: `serial = 0` (spec §3.1), all slots unwritten. -/
def RingState.init : RingState := { serial := 0, slots := fun _ => 0 }

/-- Modelled from the spec: the publisher code (§4.4) is not in `src/`.
One publication computes the next serial `s = serial + 1`, writes the frame
into slot `(s - 1) % nbufs`, and finally publishes `serial = s` on the
object. -/
def ring_publish (nbufs : Int) (st : RingState) : RingState :=
  let s := st.serial + 1
  { serial := s
    slots := fun k => if k = slot_index nbufs s then s else st.slots k }

/-- Ring state after `n` successive publications. -/
def ring_run (nbufs : Int) : Nat → RingState
  | 0 => RingState.init
  | n + 1 => ring_publish nbufs (ring_run nbufs n)

/-- After `n` publications the object's serial is `n`. -/
theorem ring_run_serial (nbufs : Int) (n : Nat) :
    (ring_run nbufs n).serial = n := by
  induction n with
  | zero => rfl
  | succ n ih => simp [ring_run, ring_publish, ih]

/-- Ring invariant: a slot holding a frame with serial `s ≥ 1` is the slot
with index `(s - 1) % nbufs`, and that frame has been published. -/
theorem ring_run_slots_inv (nbufs : Int) (n : Nat) (k s : Int)
    (h : (ring_run nbufs n).slots k = s) (hs : 1 ≤ s) :
    k = slot_index nbufs s ∧ s ≤ n := by
  induction n with
  | zero =>
      simp only [ring_run, RingState.init] at h
      omega
  | succ n ih =>
      simp only [ring_run, ring_publish, ring_run_serial] at h
      by_cases hk : k = slot_index nbufs ((n : Int) + 1)
      · simp only [hk, if_pos rfl] at h
        subst h
        exact ⟨hk, by push_cast; omega⟩
      · rw [if_neg hk] at h
        obtain ⟨h1, h2⟩ := ih h
        exact ⟨h1, by push_cast at h2 ⊢; omega⟩

/-- C2: for every remote object created with `(nbufs, offset, stride)` and
in any state reached by publications, a ring slot holding frame `s ≥ 1` is
the slot beginning at byte offset `offset + ((s − 1) mod nbufs) · stride`
from the object header, and frame `s` is visible to clients iff `s` does
not exceed the object's atomic serial (which equals the number of
publications so far). -/
theorem C2_ring_slot_offset_and_visibility (nbufs offset stride : Int)
    (hnb : 1 ≤ nbufs) (n : Nat) (s k : Int) (hs : 1 ≤ s) :
    ((ring_run nbufs n).slots k = s →
      slot_offset offset stride nbufs s =
        offset + ((s - 1) % nbufs) * stride ∧
      k = (s - 1) % nbufs ∧ s ≤ (ring_run nbufs n).serial) ∧
    (frame_visible s (ring_run nbufs n).serial ↔ s ≤ n) := by
  constructor
  · intro h
    obtain ⟨h1, h2⟩ := ring_run_slots_inv nbufs n k s h hs
    refine ⟨rfl, h1, ?_⟩
    rw [ring_run_serial]; exact_mod_cast h2
  · rw [ring_run_serial]
    exact ⟨fun h => h.2, fun h => ⟨hs, h⟩⟩

/-- Witness for C2 at a concrete input: `nbufs = 2`, after 3 publications,
frame `s = 3` is held in slot `0 = (3 − 1) mod 2` and is visible. -/
theorem C2_ring_slot_offset_and_visibility_witness :
    (1:Int) ≤ 2 ∧ (1:Int) ≤ 3 ∧
    (((ring_run 2 3).slots 0 = 3 →
      slot_offset 100 8 2 3 = 100 + ((3 - 1) % 2) * 8 ∧
      (0:Int) = (3 - 1) % 2 ∧ (3:Int) ≤ (ring_run 2 3).serial) ∧
    (frame_visible 3 (ring_run 2 3).serial ↔ (3:Int) ≤ (3:Nat))) :=
  ⟨by norm_num, by norm_num,
    C2_ring_slot_offset_and_visibility 2 100 8 (by norm_num) 3 3 0 (by norm_num)⟩

/-- Observable part of a remote object driven by its owning server: the two
atomic counters, the atomic state, and whether the server's event loop has
exited. -/
structure ServerObs where
  serial : Int
  ncmds : Int
  state : State
  exited : Bool

/-- Initial server observation: `serial = 0`, `ncmds = 0` (spec §3.1), the
server starts in the `initializing` state with its event loop running. -/
def ServerObs.init : ServerObs :=
  { serial := 0, ncmds := 0, state := .initializing, exited := false }

/-- Modelled from the spec: the server event loop (§4.3–4.4) is not in
`src/`.  While the loop runs it may publish a frame (`serial := serial +
1`), complete a command (`ncmds` is advanced to the command's serial, which
exceeds the current `ncmds`), or move to any state below `unreachable`;
when the loop exits, the state becomes `unreachable` and no further step
occurs. -/
inductive ServerStep : ServerObs → ServerObs → Prop where
  | publish (a : ServerObs) (h : a.exited = false) :
      ServerStep a { a with serial := a.serial + 1 }
  | complete (a : ServerObs) (num : Int) (h : a.exited = false)
      (hnum : a.ncmds < num) :
      ServerStep a { a with ncmds := num }
  | setState (a : ServerObs) (s : State) (h : a.exited = false)
      (hs : s.code < TAO_STATE_UNREACHABLE) :
      ServerStep a { a with state := s }
  | exitLoop (a : ServerObs) (h : a.exited = false) :
      ServerStep a { a with state := .unreachable, exited := true }

/-- One server step never decreases `serial` nor `ncmds`. -/
theorem ServerStep.mono {a b : ServerObs} (h : ServerStep a b) :
    a.serial ≤ b.serial ∧ a.ncmds ≤ b.ncmds := by
  cases h <;> simp <;> omega

/-- One server step preserves the aliveness invariant: the state is below
`unreachable` iff the event loop has not exited. -/
theorem ServerStep.keeps_alive_iff {a b : ServerObs} (h : ServerStep a b)
    (ha : a.state.code < TAO_STATE_UNREACHABLE ↔ a.exited = false) :
    b.state.code < TAO_STATE_UNREACHABLE ↔ b.exited = false := by
  cases h with
  | publish h => simpa using ha
  | complete num h hnum => simpa using ha
  | setState s h hs => simp [h, hs]
  | exitLoop h => simp [State.code, TAO_STATE_UNREACHABLE]

/-- `serial` and `ncmds` never decrease along any execution fragment. -/
theorem serverSteps_mono {a b : ServerObs}
    (h : Relation.ReflTransGen ServerStep a b) :
    a.serial ≤ b.serial ∧ a.ncmds ≤ b.ncmds := by
  induction h with
  | refl => exact ⟨le_refl _, le_refl _⟩
  | tail hab hbc ih =>
      obtain ⟨h1, h2⟩ := hbc.mono
      exact ⟨ih.1.trans h1, ih.2.trans h2⟩

/-- The aliveness invariant holds in every state reachable from the initial
one. -/
theorem serverSteps_inv {a : ServerObs}
    (h : Relation.ReflTransGen ServerStep ServerObs.init a) :
    a.state.code < TAO_STATE_UNREACHABLE ↔ a.exited = false := by
  induction h with
  | refl => simp [ServerObs.init, State.code, TAO_STATE_UNREACHABLE]
  | tail hab hbc ih => exact hbc.keeps_alive_iff ih

/-- C3: along every execution of the server, the atomic `serial` never
decreases, the atomic `ncmds` never decreases, and in every reachable state
the state field is strictly below `unreachable` iff the owning server's
event loop has not exited. -/
theorem C3_serial_ncmds_monotone_state_iff_alive (a b : ServerObs)
    (ha : Relation.ReflTransGen ServerStep ServerObs.init a)
    (hab : Relation.ReflTransGen ServerStep a b) :
    a.serial ≤ b.serial ∧ a.ncmds ≤ b.ncmds ∧
    (b.state.code < TAO_STATE_UNREACHABLE ↔ b.exited = false) := by
  obtain ⟨h1, h2⟩ := serverSteps_mono hab
  exact ⟨h1, h2, serverSteps_inv (ha.trans hab)⟩

/-- Witness for C3 at a concrete execution: from the initial state, publish
one frame and then exit the loop; the final state is `unreachable` with the
loop exited. -/
theorem C3_serial_ncmds_monotone_state_iff_alive_witness :
    let fin : ServerObs :=
      { serial := 0 + 1, ncmds := 0, state := .unreachable, exited := true }
    ServerObs.init.serial ≤ fin.serial ∧ ServerObs.init.ncmds ≤ fin.ncmds ∧
      (fin.state.code < TAO_STATE_UNREACHABLE ↔ fin.exited = false) :=
  C3_serial_ncmds_monotone_state_iff_alive _ _ Relation.ReflTransGen.refl
    (Relation.ReflTransGen.head (ServerStep.publish ServerObs.init rfl)
      (Relation.ReflTransGen.single
        (ServerStep.exitLoop
          { serial := 0 + 1, ncmds := 0, state := .initializing,
            exited := false } rfl)))

/-- Observable state of a read/write-locked object, from `struct
tao_rwlocked_object` in `tao-rwlocked-objects-private.h` (`users` and
`writers` counters), extended with ghost fields counting the threads that
actually hold read access (`readers`) and whether a thread holds write
access (`writing`). -/
structure RWLockObs where
  users : Int
  writers : Int
  readers : Nat
  writing : Bool

/-- Initial read/write-lock state: idle, no blocked writers, no holders. -/
def RWLockObs.init : RWLockObs :=
  { users := 0, writers := 0, readers := 0, writing := false }

/-- Modelled from the spec: the rwlock code is not in `src/` (only the
structure and the lock/unlock declarations).  Per the private header and
spec §4.2 / §3.1: a reader is admitted only when no writer is active
(`users ≥ 0`) and no writer is blocked (`writers = 0`, writer preference);
an arriving writer first increments `writers`; a blocked writer acquires
exclusivity only when `users = 0`, setting `users = −1`; releases undo the
counters. -/
inductive RWStep : RWLockObs → RWLockObs → Prop where
  | rdAcquire (a : RWLockObs) (h1 : 0 ≤ a.users) (h2 : a.writers = 0) :
      RWStep a
        { a with users := a.users + 1, readers := a.readers + 1 }
  | rdRelease (a : RWLockObs) (h : 0 < a.users) :
      RWStep a
        { a with users := a.users - 1, readers := a.readers - 1 }
  | wrArrive (a : RWLockObs) :
      RWStep a { a with writers := a.writers + 1 }
  | wrAcquire (a : RWLockObs) (h1 : a.users = 0) (h2 : 0 < a.writers) :
      RWStep a
        { a with users := -1, writers := a.writers - 1, writing := true }
  | wrRelease (a : RWLockObs) (h : a.users = -1) :
      RWStep a { a with users := 0, writing := false }

/-- The read/write-lock invariant: `writers` is nonnegative, and `users` is
either `−1` with exactly one active writer and no readers, or the exact
number of active readers with no writer. -/
def RWInv (a : RWLockObs) : Prop :=
  0 ≤ a.writers ∧
    ((a.users = -1 ∧ a.writing = true ∧ a.readers = 0) ∨
      (a.users = (a.readers : Int) ∧ a.writing = false))

/-- One rwlock step preserves the invariant. -/
theorem RWStep.keeps_rwinv {a b : RWLockObs} (h : RWStep a b) (ha : RWInv a) :
    RWInv b := by
  obtain ⟨hw, hcase⟩ := ha
  cases h with
  | rdAcquire h1 h2 =>
      refine ⟨hw, Or.inr ⟨?_, ?_⟩⟩
      · show a.users + 1 = ((a.readers + 1 : Nat) : Int)
        rcases hcase with ⟨hu, _, _⟩ | ⟨hu, _⟩
        · omega
        · omega
      · rcases hcase with ⟨_, _, _⟩ | ⟨hu, hwr⟩
        · omega
        · exact hwr
  | rdRelease h =>
      refine ⟨hw, Or.inr ⟨?_, ?_⟩⟩
      · show a.users - 1 = ((a.readers - 1 : Nat) : Int)
        rcases hcase with ⟨hu, _, _⟩ | ⟨hu, _⟩
        · omega
        · omega
      · rcases hcase with ⟨hu, _, _⟩ | ⟨hu, hwr⟩
        · omega
        · exact hwr
  | wrArrive =>
      refine ⟨?_, hcase⟩
      show 0 ≤ a.writers + 1
      omega
  | wrAcquire h1 h2 =>
      refine ⟨?_, Or.inl ⟨rfl, rfl, ?_⟩⟩
      · show 0 ≤ a.writers - 1
        omega
      · show a.readers = 0
        rcases hcase with ⟨hu, _, _⟩ | ⟨hu, _⟩
        · omega
        · omega
  | wrRelease h =>
      refine ⟨hw, Or.inr ⟨?_, rfl⟩⟩
      show (0 : Int) = (a.readers : Int)
      rcases hcase with ⟨hu, hwr, hrd⟩ | ⟨hu, hwr⟩
      · omega
      · omega

/-- The invariant holds in every reachable read/write-lock state. -/
theorem rwSteps_inv {a : RWLockObs}
    (h : Relation.ReflTransGen RWStep RWLockObs.init a) : RWInv a := by
  induction h with
  | refl => exact ⟨le_refl _, Or.inr ⟨rfl, rfl⟩⟩
  | tail hab hbc ih => exact hbc.keeps_rwinv ih

/-- C5: in every reachable state of a read/write-locked object, `users` is
`−1` (one active writer, no readers), `0` (idle) or positive (that many
active readers, no writer); reading and writing never overlap; a writer
acquires the lock only from a state with `users = 0`; and no new reader is
admitted while a writer is blocked (`writers > 0`). -/
theorem C5_rwlock_users_invariant (a : RWLockObs)
    (h : Relation.ReflTransGen RWStep RWLockObs.init a) :
    (0 ≤ a.writers) ∧
    ((a.users = -1 ∧ a.writing = true ∧ a.readers = 0) ∨
      (a.users = 0 ∧ a.writing = false ∧ a.readers = 0) ∨
      (0 < a.users ∧ a.writing = false ∧
        a.users = (a.readers : Int))) ∧
    (¬(0 < a.readers ∧ a.writing = true)) ∧
    (∀ b, RWStep a b → a.writing = false → b.writing = true →
      a.users = 0) ∧
    (∀ b, RWStep a b → b.readers = a.readers + 1 → a.writers = 0) := by
  obtain ⟨hw, hcase⟩ := rwSteps_inv h
  have hcase3 : (a.users = -1 ∧ a.writing = true ∧ a.readers = 0) ∨
      (a.users = 0 ∧ a.writing = false ∧ a.readers = 0) ∨
      (0 < a.users ∧ a.writing = false ∧
        a.users = (a.readers : Int)) := by
    rcases hcase with h1 | ⟨hu, hwf⟩
    · exact Or.inl h1
    · rcases Nat.eq_zero_or_pos a.readers with hr | hr
      · refine Or.inr (Or.inl ⟨by omega, hwf, hr⟩)
      · refine Or.inr (Or.inr ⟨by omega, hwf, hu⟩)
  refine ⟨hw, hcase3, ?_, ?_, ?_⟩
  · rintro ⟨hr, hwr⟩
    rcases hcase with ⟨_, _, hrd⟩ | ⟨_, hwf⟩
    · omega
    · rw [hwf] at hwr; exact Bool.false_ne_true hwr
  · intro b hb haw hbw
    cases hb with
    | rdAcquire h1 h2 => rw [haw] at hbw; exact absurd hbw (by simp)
    | rdRelease h => rw [haw] at hbw; exact absurd hbw (by simp)
    | wrArrive => rw [haw] at hbw; exact absurd hbw (by simp)
    | wrAcquire h1 h2 => exact h1
    | wrRelease h => exact absurd hbw (by simp)
  · intro b hb hr
    cases hb with
    | rdAcquire h1 h2 => exact h2
    | rdRelease h => simp at hr
    | wrArrive => simp at hr
    | wrAcquire h1 h2 => simp at hr
    | wrRelease h => simp at hr

/-- Witness for C5 at a concrete reachable state: a writer arrives and
then acquires the lock from the idle state; the resulting state has
`users = -1`, one active writer and no readers. -/
theorem C5_rwlock_users_invariant_witness :
    let a : RWLockObs :=
      { users := -1, writers := 0 + 1 - 1, readers := 0, writing := true }
    (0 ≤ a.writers) ∧
    ((a.users = -1 ∧ a.writing = true ∧ a.readers = 0) ∨
      (a.users = 0 ∧ a.writing = false ∧ a.readers = 0) ∨
      (0 < a.users ∧ a.writing = false ∧
        a.users = (a.readers : Int))) ∧
    (¬(0 < a.readers ∧ a.writing = true)) ∧
    (∀ b, RWStep a b → a.writing = false → b.writing = true →
      a.users = 0) ∧
    (∀ b, RWStep a b → b.readers = a.readers + 1 → a.writers = 0) :=
  C5_rwlock_users_invariant _
    (Relation.ReflTransGen.head (RWStep.wrArrive RWLockObs.init)
      (Relation.ReflTransGen.single
        (RWStep.wrAcquire
          { users := 0, writers := 0 + 1, readers := 0, writing := false }
          rfl (by norm_num))))

/-- `TAO_ASSUME_TIMOUT_IF_SERVER_KILLED` is defined to `1` in
`tao-remote-objects-private.h`; it selects whether a *command* that fails
because the server has been killed is reported as a timeout.  The
`wait_output` sentinel table of spec §4.4 keeps the distinguished `−2`
return for a killed server, which is what is modelled below. -/
def TAO_ASSUME_TIMOUT_IF_SERVER_KILLED : Nat := 1

/-- The serial effectively waited for by `wait_output`: a nonpositive `num`
means "the next output buffer", i.e. the first serial published after the
call started (`startSerial` is the object's serial when the call began). -/
def wait_output_request (num startSerial : Int) : Int :=
  if num ≤ 0 then startSerial + 1 else num

/-- Modelled from the spec: the body of `tao_remote_object_wait_output` is
not in `src/`.  The returned sentinel is decided, per the table of spec
§4.4 and the header doc, from what the caller observes when its wait ends:
the object's atomic `serial`, the requested slot's header serial
(`slotSerial`), the server state, and whether an internal failure
occurred.  When none of the sentinel conditions holds, the wait can only
have ended because the deadline elapsed, which yields `0`. -/
def tao_remote_object_wait_output (num startSerial serial slotSerial : Int)
    (stateCode : Nat) (fail : Bool) : Int :=
  let req := wait_output_request num startSerial
  if fail then -3
  else if req < slotSerial then -1
  else if req ≤ serial then req
  else if TAO_STATE_UNREACHABLE ≤ stateCode then -2
  else 0

/-- C1: a strictly positive return of `wait_output(obj, num, secs)` is
`num` itself, or — for `num ≤ 0` — the first serial published after the
call started; otherwise the return is `0` when the deadline elapses before
the requested buffer is available, `−1` when the requested buffer has been
overwritten (slot serial beyond the request), `−2` when the server has
been killed (`state ≥ unreachable`) and the request exceeds the last
published serial, and `−3` on internal failure. -/
theorem C1_wait_output_return_contract
    (num startSerial serial slotSerial : Int) (stateCode : Nat)
    (fail : Bool) (req r : Int) (hstart : 0 ≤ startSerial)
    (hreq : req = wait_output_request num startSerial)
    (hr : r = tao_remote_object_wait_output num startSerial serial slotSerial
      stateCode fail) :
    (0 < r → (r = num ∨ (num ≤ 0 ∧ r = startSerial + 1))) ∧
    (r = -3 ↔ fail = true) ∧
    (fail = false → (r = -1 ↔ req < slotSerial)) ∧
    (fail = false → slotSerial ≤ req → req ≤ serial →
      r = req ∧ 0 < r) ∧
    (fail = false → slotSerial ≤ req → serial < req →
      TAO_STATE_UNREACHABLE ≤ stateCode → r = -2) ∧
    (fail = false → slotSerial ≤ req → serial < req →
      stateCode < TAO_STATE_UNREACHABLE → r = 0) := by
  subst hreq hr
  cases fail <;>
    simp only [tao_remote_object_wait_output, wait_output_request,
      TAO_STATE_UNREACHABLE, if_true, if_false, Bool.false_eq_true,
      Bool.true_eq_false, false_implies, true_implies, iff_true, iff_false,
      eq_self_iff_true, true_and, and_true] <;>
    (try split_ifs) <;>
    (try simp only [false_iff, iff_false, true_iff, iff_true,
      not_false_eq_true, implies_true, true_and, and_true, imp_false,
      not_lt, not_le, true_or, or_true]) <;> omega

/-- Witness for C1 at concrete inputs: requested serial 3, call started at
serial 1, current serial 5, slot serial 3, server waiting, no failure; the
call returns 3. -/
theorem C1_wait_output_return_contract_witness :
    (0:Int) ≤ 1 ∧ (3:Int) = wait_output_request 3 1 ∧
    (3:Int) = tao_remote_object_wait_output 3 1 5 3 1 false ∧
    (((0:Int) < 3 → ((3:Int) = 3 ∨ ((3:Int) ≤ 0 ∧ (3:Int) = 1 + 1))) ∧
     ((3:Int) = -3 ↔ false = true) ∧
     (false = false → ((3:Int) = -1 ↔ (3:Int) < 3)) ∧
     (false = false → (3:Int) ≤ 3 → (3:Int) ≤ 5 → (3:Int) = 3 ∧ (0:Int) < 3) ∧
     (false = false → (3:Int) ≤ 3 → (5:Int) < 3 →
       TAO_STATE_UNREACHABLE ≤ 1 → (3:Int) = -2) ∧
     (false = false → (3:Int) ≤ 3 → (5:Int) < 3 →
       1 < TAO_STATE_UNREACHABLE → (3:Int) = 0)) :=
  ⟨by norm_num, by decide, by decide,
    C1_wait_output_return_contract 3 1 5 3 1 false 3 3 (by norm_num)
      (by decide) (by decide)⟩

/-- Call status, from `tao_status` in `tao-basics.h`
(`TAO_ERROR = −1`, `TAO_OK = 0`, `TAO_TIMEOUT = 1`). -/
inductive TaoStatus where
  | error
  | ok
  | timeout
deriving DecidableEq, Repr

/-- Data-frame descriptor retrieved by clients, from `tao_dataframe_info`
in `tao-remote-objects.h` (the time stamp is modelled as a single
nanosecond count). -/
structure DataframeInfo where
  serial : Int
  mark : Int
  time : Int
deriving DecidableEq, Repr

/-- Contents of one remote-mirror ring slot: the data-frame header
(`tao_dataframe_header`) followed by the four command vectors
(reference, perturbation, requested, effective), per
`tao-remote-mirrors-private.h`. -/
structure MirrorFrame where
  serial : Int
  mark : Int
  time : Int
  refcmds : List ℚ
  perturb : List ℚ
  reqcmds : List ℚ
  effcmds : List ℚ

/-- Clamp a command value into the interval `[lo, hi]`. -/
def clamp (x lo hi : ℚ) : ℚ := min (max x lo) hi

/-- The applied commands of a "send": element-wise sum of the reference,
perturbation and requested values, clamped into `[cmin, cmax]`. -/
def applied_commands (m : RemoteMirror) (vals : List ℚ) : List ℚ :=
  (List.zipWith (· + ·) (List.zipWith (· + ·) m.refcmds m.perturb) vals).map
    (fun x => clamp x m.cmin m.cmax)

/-- Modelled from the spec: the server-side handling of the "*send*"
command (`tao_remote_mirror_send_commands` / `tao_remote_mirror_run_loop`)
is not in `src/`.  Per spec §4.6 and the `tao_remote_mirror_operations`
doc: the frame published at serial `datnum` carries the requested values,
the reference and perturbation in force, and effective commands obtained
by clamping the applied commands element-wise into `[cmin, cmax]` and then
letting the server's `on_send` callback modify them; the frame's `mark` is
the caller's mark. -/
def mirror_send_frame (m : RemoteMirror) (vals : List ℚ) (mark : Int)
    (onSend : List ℚ → List ℚ) (datnum : Int) (time : Int) : MirrorFrame :=
  { serial := datnum
    mark := mark
    time := time
    refcmds := m.refcmds
    perturb := m.perturb
    reqcmds := vals
    effcmds := onSend (applied_commands m vals) }

/-- `getD` of an element-wise sum of two lists, inside both lengths. -/
theorem getD_zipWith_add (xs ys : List ℚ) (i : Nat) (hx : i < xs.length)
    (hy : i < ys.length) :
    (List.zipWith (· + ·) xs ys).getD i 0 = xs.getD i 0 + ys.getD i 0 := by
  induction xs generalizing ys i with
  | nil => simp at hx
  | cons x xs ih =>
      cases ys with
      | nil => simp at hy
      | cons y ys =>
          cases i with
          | zero => simp [List.getD]
          | succ i =>
              simp only [List.zipWith_cons_cons, List.getD_cons_succ]
              exact ih ys i (by simpa using hx) (by simpa using hy)

/-- `getD` of a mapped list, inside the length. -/
theorem getD_map_fun (f : ℚ → ℚ) (l : List ℚ) (i : Nat) (h : i < l.length) :
    (l.map f).getD i 0 = f (l.getD i 0) := by
  induction l generalizing i with
  | nil => simp at h
  | cons x l ih =>
      cases i with
      | zero => simp [List.getD]
      | succ i =>
          simp only [List.map_cons, List.getD_cons_succ]
          exact ih i (by simpa using h)

/-- C4: for every successful `send_commands(vals, nvals, mark, secs,
&datnum)` on a mirror with bounds `[cmin, cmax]` and `nvals` equal to the
actuator count, the data-frame published at serial `datnum` carries
effective commands equal, element-wise, to the applied commands (reference
+ perturbation + requested) clamped into `[cmin, cmax]` — possibly further
modified by the server's `on_send` callback — and the frame's `mark`
equals the `mark` argument. -/
theorem C4_send_commands_clamped_and_marked (m : RemoteMirror)
    (vals : List ℚ) (mark : Int) (onSend : List ℚ → List ℚ)
    (datnum time : Int) (i : Nat)
    (href : m.refcmds.length = m.nacts) (hper : m.perturb.length = m.nacts)
    (hvals : vals.length = m.nacts) (hi : i < m.nacts) :
    (mirror_send_frame m vals mark onSend datnum time).mark = mark ∧
    (mirror_send_frame m vals mark onSend datnum time).serial = datnum ∧
    (mirror_send_frame m vals mark onSend datnum time).effcmds =
      onSend (applied_commands m vals) ∧
    (applied_commands m vals).getD i 0 =
      clamp (m.refcmds.getD i 0 + m.perturb.getD i 0 + vals.getD i 0)
        m.cmin m.cmax ∧
    (onSend = id →
      (mirror_send_frame m vals mark onSend datnum time).effcmds.getD i 0 =
        clamp (m.refcmds.getD i 0 + m.perturb.getD i 0 + vals.getD i 0)
          m.cmin m.cmax) := by
  have hz1 : i < (List.zipWith (· + ·) m.refcmds m.perturb).length := by
    rw [List.length_zipWith]; omega
  have hz2 : i <
      (List.zipWith (· + ·) (List.zipWith (· + ·) m.refcmds m.perturb)
        vals).length := by
    rw [List.length_zipWith, List.length_zipWith]; omega
  have key : (applied_commands m vals).getD i 0 =
      clamp (m.refcmds.getD i 0 + m.perturb.getD i 0 + vals.getD i 0)
        m.cmin m.cmax := by
    unfold applied_commands
    rw [getD_map_fun _ _ _ hz2, getD_zipWith_add _ _ _ hz1 (by omega),
      getD_zipWith_add _ _ _ (by omega) (by omega)]
  refine ⟨rfl, rfl, rfl, key, fun hid => ?_⟩
  simpa [mirror_send_frame, hid] using key

/-- Witness for C4 at a concrete input (spec §8 scenario 4, reduced to two
actuators): bounds `[−1, 1]`, reference and perturbation zero, requested
commands `3/2`, identity callback, `mark = 42`; the effective command at
index 0 is the clamp of `3/2`, namely `1`, and the frame's mark is 42. -/
theorem C4_send_commands_clamped_and_marked_witness :
    let m : RemoteMirror :=
      { base := { size := 0, type := 0, shmid := 1, nbufs := 2, offset := 0,
                  stride := 0, serial := 0, state := .waiting,
                  command := .none, ncmds := 0, owner := "dm1" }
        nacts := 2, dims := (2, 1), cmin := -1, cmax := 1, mark := 0,
        inds := [0, 1], refcmds := [0, 0], perturb := [0, 0],
        reqcmds := [0, 0] }
    (mirror_send_frame m [3/2, 3/2] 42 id 7 0).mark = 42 ∧
    (mirror_send_frame m [3/2, 3/2] 42 id 7 0).serial = 7 ∧
    (mirror_send_frame m [3/2, 3/2] 42 id 7 0).effcmds =
      id (applied_commands m [3/2, 3/2]) ∧
    (applied_commands m [3/2, 3/2]).getD 0 0 =
      clamp (([0, 0] : List ℚ).getD 0 0 + ([0, 0] : List ℚ).getD 0 0 +
        ([3/2, 3/2] : List ℚ).getD 0 0) (-1) 1 ∧
    ((id : List ℚ → List ℚ) = id →
      (mirror_send_frame m [3/2, 3/2] 42 id 7 0).effcmds.getD 0 0 =
        clamp (([0, 0] : List ℚ).getD 0 0 + ([0, 0] : List ℚ).getD 0 0 +
          ([3/2, 3/2] : List ℚ).getD 0 0) (-1) 1) :=
  C4_send_commands_clamped_and_marked _ [3/2, 3/2] 42 id 7 0 0
    rfl rfl rfl (by norm_num)

/-- Modelled from the spec: the body of `tao_remote_mirror_fetch_data` is
not in `src/`.  Per the header doc and spec §4.4: invalid arguments give
`TAO_ERROR` and no output buffer is modified; otherwise the payload is
copied lock-free and the slot's atomic serial is re-read (`recheck`): if it
differs from `num` the copy is discarded, the non-NULL output buffers are
zero-filled (`nvals` elements), and `info.serial` is set to `0` when the
requested frame is still in the future (`recheck < num`) and to `−1` when
it has been overwritten (`recheck > num`); on success the buffers receive
the slot's vectors and `info` describes the frame. -/
def tao_remote_mirror_fetch_data (m : RemoteMirror) (num : Int)
    (slot : MirrorFrame) (recheck : Int)
    (refbuf perbuf reqbuf effbuf : Option (List ℚ)) (nvals : Int)
    (info : DataframeInfo) :
    TaoStatus ×
      (Option (List ℚ) × Option (List ℚ) × Option (List ℚ) ×
        Option (List ℚ)) × DataframeInfo :=
  if num < 1 ∨ nvals ≠ (m.nacts : Int) then
    (.error, (refbuf, perbuf, reqbuf, effbuf), info)
  else if recheck ≠ num then
    let z := fun (_ : Option (List ℚ)) =>
      Option.map (fun (_ : List ℚ) => List.replicate nvals.toNat (0 : ℚ))
    (.timeout,
      (z refbuf refbuf, z perbuf perbuf, z reqbuf reqbuf, z effbuf effbuf),
      { serial := if num < recheck then -1 else 0, mark := 0, time := 0 })
  else
    (.ok,
      (refbuf.map fun _ => slot.refcmds, perbuf.map fun _ => slot.perturb,
        reqbuf.map fun _ => slot.reqcmds, effbuf.map fun _ => slot.effcmds),
      { serial := slot.serial, mark := slot.mark, time := slot.time })

/-- C6: when, after the lock-free copy, the slot's atomic serial differs
from the requested `num`, `fetch_data` returns `TAO_TIMEOUT`, every
non-NULL output buffer is zero-filled, and the reported `info.serial` is
`0` when the requested frame is still in the future and `−1` when it has
been overwritten; and when it fails with `TAO_ERROR`, no output buffer is
modified. -/
theorem C6_fetch_mismatch_zero_fill_error_untouched (m : RemoteMirror)
    (num : Int) (slot : MirrorFrame) (recheck : Int)
    (refbuf perbuf reqbuf effbuf : Option (List ℚ)) (nvals : Int)
    (info : DataframeInfo)
    (hval : ¬(num < 1 ∨ nvals ≠ (m.nacts : Int))) :
    (recheck ≠ num →
      (tao_remote_mirror_fetch_data m num slot recheck refbuf perbuf reqbuf
          effbuf nvals info).1 = .timeout ∧
      (∀ b, refbuf = some b →
        (tao_remote_mirror_fetch_data m num slot recheck refbuf perbuf
            reqbuf effbuf nvals info).2.1.1 =
          some (List.replicate nvals.toNat 0)) ∧
      (∀ b, perbuf = some b →
        (tao_remote_mirror_fetch_data m num slot recheck refbuf perbuf
            reqbuf effbuf nvals info).2.1.2.1 =
          some (List.replicate nvals.toNat 0)) ∧
      (∀ b, reqbuf = some b →
        (tao_remote_mirror_fetch_data m num slot recheck refbuf perbuf
            reqbuf effbuf nvals info).2.1.2.2.1 =
          some (List.replicate nvals.toNat 0)) ∧
      (∀ b, effbuf = some b →
        (tao_remote_mirror_fetch_data m num slot recheck refbuf perbuf
            reqbuf effbuf nvals info).2.1.2.2.2 =
          some (List.replicate nvals.toNat 0)) ∧
      (num < recheck →
        (tao_remote_mirror_fetch_data m num slot recheck refbuf perbuf
            reqbuf effbuf nvals info).2.2.serial = -1) ∧
      (recheck < num →
        (tao_remote_mirror_fetch_data m num slot recheck refbuf perbuf
            reqbuf effbuf nvals info).2.2.serial = 0)) ∧
    (∀ m2 num2 slot2 recheck2 nvals2 info2,
      (num2 < 1 ∨ nvals2 ≠ ((m2 : RemoteMirror).nacts : Int)) →
      tao_remote_mirror_fetch_data m2 num2 slot2 recheck2 refbuf perbuf
          reqbuf effbuf nvals2 info2 =
        (.error, (refbuf, perbuf, reqbuf, effbuf), info2)) := by
  constructor
  · intro hne
    unfold tao_remote_mirror_fetch_data
    rw [if_neg hval, if_pos hne]
    refine ⟨rfl, ?_, ?_, ?_, ?_, ?_, ?_⟩
    · rintro b rfl; rfl
    · rintro b rfl; rfl
    · rintro b rfl; rfl
    · rintro b rfl; rfl
    · intro hlt
      simp only
      rw [if_pos hlt]
    · intro hlt
      simp only
      rw [if_neg (by omega)]
  · intro m2 num2 slot2 recheck2 nvals2 info2 hbad
    unfold tao_remote_mirror_fetch_data
    rw [if_pos hbad]

/-- Witness for C6 at a concrete input: a two-actuator mirror, requested
frame 1 whose slot now holds serial 3 (overwritten), all four output
buffers non-NULL: timeout, all four buffers zero-filled,
`info.serial = −1`. -/
theorem C6_fetch_mismatch_zero_fill_error_untouched_witness :
    let m : RemoteMirror :=
      { base := { size := 0, type := 0, shmid := 1, nbufs := 2, offset := 0,
                  stride := 0, serial := 3, state := .working,
                  command := .none, ncmds := 0, owner := "dm1" }
        nacts := 2, dims := (2, 1), cmin := -1, cmax := 1, mark := 0,
        inds := [0, 1], refcmds := [0, 0], perturb := [0, 0],
        reqcmds := [0, 0] }
    let slot : MirrorFrame :=
      { serial := 3, mark := 0, time := 0, refcmds := [1, 1],
        perturb := [0, 0], reqcmds := [1, 1], effcmds := [1, 1] }
    ¬((1:Int) < 1 ∨ (2:Int) ≠ ((2:Nat) : Int)) ∧
    (((3:Int) ≠ 1 →
      (tao_remote_mirror_fetch_data m 1 slot 3 (some [5, 5]) (some [7, 7])
          (some [8, 8]) (some [6, 6]) 2 ⟨9, 9, 9⟩).1 = .timeout ∧
      (∀ b, (some [(5:ℚ), 5] : Option (List ℚ)) = some b →
        (tao_remote_mirror_fetch_data m 1 slot 3 (some [5, 5]) (some [7, 7])
            (some [8, 8]) (some [6, 6]) 2 ⟨9, 9, 9⟩).2.1.1 =
          some (List.replicate (2:Int).toNat 0)) ∧
      (∀ b, (some [(7:ℚ), 7] : Option (List ℚ)) = some b →
        (tao_remote_mirror_fetch_data m 1 slot 3 (some [5, 5]) (some [7, 7])
            (some [8, 8]) (some [6, 6]) 2 ⟨9, 9, 9⟩).2.1.2.1 =
          some (List.replicate (2:Int).toNat 0)) ∧
      (∀ b, (some [(8:ℚ), 8] : Option (List ℚ)) = some b →
        (tao_remote_mirror_fetch_data m 1 slot 3 (some [5, 5]) (some [7, 7])
            (some [8, 8]) (some [6, 6]) 2 ⟨9, 9, 9⟩).2.1.2.2.1 =
          some (List.replicate (2:Int).toNat 0)) ∧
      (∀ b, (some [(6:ℚ), 6] : Option (List ℚ)) = some b →
        (tao_remote_mirror_fetch_data m 1 slot 3 (some [5, 5]) (some [7, 7])
            (some [8, 8]) (some [6, 6]) 2 ⟨9, 9, 9⟩).2.1.2.2.2 =
          some (List.replicate (2:Int).toNat 0)) ∧
      ((1:Int) < 3 →
        (tao_remote_mirror_fetch_data m 1 slot 3 (some [5, 5]) (some [7, 7])
            (some [8, 8]) (some [6, 6]) 2 ⟨9, 9, 9⟩).2.2.serial = -1) ∧
      ((3:Int) < 1 →
        (tao_remote_mirror_fetch_data m 1 slot 3 (some [5, 5]) (some [7, 7])
            (some [8, 8]) (some [6, 6]) 2 ⟨9, 9, 9⟩).2.2.serial = 0)) ∧
    (∀ m2 num2 slot2 recheck2 nvals2 info2,
      (num2 < 1 ∨ nvals2 ≠ ((m2 : RemoteMirror).nacts : Int)) →
      tao_remote_mirror_fetch_data m2 num2 slot2 recheck2 (some [5, 5])
          (some [7, 7]) (some [8, 8]) (some [6, 6]) nvals2 info2 =
        (.error, (some [5, 5], some [7, 7], some [8, 8], some [6, 6]),
          info2))) :=
  ⟨by norm_num,
    C6_fetch_mismatch_zero_fill_error_untouched _ 1 _ 3 (some [5, 5])
      (some [7, 7]) (some [8, 8]) (some [6, 6]) 2 ⟨9, 9, 9⟩ (by norm_num)⟩

/-- Traversal key of a column-major cell `c` of a `dim1 × dim2` grid under
an orientation word, from the doc of `tao_indexed_layout_build` in
`tao-layouts.h`: bit 1 reverses the numbering along the first dimension,
bit 2 along the second, bit 3 selects row-major instead of column-major
numbering.  Active nodes are numbered in increasing key order. -/
def layout_key (dim1 dim2 orient c : Nat) : Nat :=
  let i := c % dim1
  let j := c / dim1
  let i2 := if orient % 2 = 1 then dim1 - 1 - i else i
  let j2 := if orient / 2 % 2 = 1 then dim2 - 1 - j else j
  if orient / 4 % 2 = 1 then i2 * dim2 + j2 else j2 * dim1 + i2

/-- Number of active nodes of a mask (non-zero bytes, column-major). -/
def layout_count (msk : List Nat) (dim1 dim2 : Nat) : Nat :=
  ((Finset.range (dim1 * dim2)).filter (fun c => msk.getD c 0 ≠ 0)).card

/-- Index assigned to an active cell: the number of active cells that
precede it in the traversal order selected by `orient`. -/
def layout_rank (msk : List Nat) (dim1 dim2 orient c : Nat) : Nat :=
  ((Finset.range (dim1 * dim2)).filter (fun c2 =>
    msk.getD c2 0 ≠ 0 ∧
      layout_key dim1 dim2 orient c2 < layout_key dim1 dim2 orient c)).card

/-- The destination index array: active nodes receive their consecutive
indices in traversal order, inactive nodes are set to `−1`
(`tao-layouts.h`). -/
def build_inds (msk : List Nat) (dim1 dim2 orient : Nat) : List Int :=
  (List.range (dim1 * dim2)).map fun c =>
    if msk.getD c 0 ≠ 0 then (layout_rank msk dim1 dim2 orient c : Int)
    else -1

/-- Modelled from the spec: the body of `tao_indexed_layout_build` is not
in `src/`.  Per its header doc: returns the number `n ≥ 0` of active nodes
(`−1` on error, e.g. empty dimensions) and fills the destination with the
indices `0 .. n−1` of the active nodes, ordered by `orient`, `−1` for
inactive nodes. -/
def tao_indexed_layout_build (msk : List Nat) (dim1 dim2 orient : Nat) :
    Int × List Int :=
  if dim1 < 1 ∨ dim2 < 1 then (-1, [])
  else ((layout_count msk dim1 dim2 : Int), build_inds msk dim1 dim2 orient)

/-- Modelled from the spec: the body of `tao_indexed_layout_check` is not
in `src/`.  Per its header doc: the layout is valid when every active index
is strictly less than the number of active nodes (inactive entries being
`−1`); the function returns that number, `−1` on error. -/
def tao_indexed_layout_check (inds : List Int) (dim1 dim2 : Nat) : Int :=
  if dim1 < 1 ∨ dim2 < 1 ∨ inds.length ≠ dim1 * dim2 then -1
  else if inds.all (fun e => decide (e = -1 ∨
      (0 ≤ e ∧ e < (inds.countP (fun e2 => decide (0 ≤ e2)) : Int)))) then
    (inds.countP (fun e2 => decide (0 ≤ e2)) : Int)
  else -1

/-- Counting over `List.range` agrees with the cardinality of the filtered
`Finset.range`. -/
theorem countP_range_eq_card_filter (N : Nat) (p : Nat → Prop)
    [DecidablePred p] :
    (List.range N).countP (fun c => decide (p c)) =
      ((Finset.range N).filter p).card := by
  induction N with
  | zero => simp
  | succ N ih =>
      rw [List.range_succ, List.countP_append, Finset.range_succ,
        Finset.filter_insert]
      by_cases h : p N
      · rw [if_pos h, Finset.card_insert_of_not_mem (by simp)]
        have hone : (List.countP (fun c => decide (p c)) [N]) = 1 := by
          simp [h]
        rw [ih, hone]
      · rw [if_neg h]
        have hzero : (List.countP (fun c => decide (p c)) [N]) = 0 := by
          simp [h]
        rw [ih, hzero]
        omega

/-- The rank of an active cell is strictly less than the number of active
nodes. -/
theorem layout_rank_lt (msk : List Nat) (dim1 dim2 orient c : Nat)
    (hc : c < dim1 * dim2) (hact : msk.getD c 0 ≠ 0) :
    layout_rank msk dim1 dim2 orient c < layout_count msk dim1 dim2 := by
  apply Finset.card_lt_card
  have hsub : (Finset.range (dim1 * dim2)).filter (fun c2 =>
      msk.getD c2 0 ≠ 0 ∧
        layout_key dim1 dim2 orient c2 < layout_key dim1 dim2 orient c) ⊆
      (Finset.range (dim1 * dim2)).filter (fun c2 => msk.getD c2 0 ≠ 0) := by
    intro x hx
    simp only [Finset.mem_filter] at hx ⊢
    exact ⟨hx.1, hx.2.1⟩
  rw [Finset.ssubset_iff_of_subset hsub]
  refine ⟨c, Finset.mem_filter.mpr ⟨Finset.mem_range.mpr hc, hact⟩, ?_⟩
  intro hmem
  exact absurd (Finset.mem_filter.mp hmem).2.2 (lt_irrefl _)

/-- Entry `c` of the built index array. -/
theorem build_inds_getD (msk : List Nat) (dim1 dim2 orient c : Nat)
    (hc : c < dim1 * dim2) (d : Int) :
    (build_inds msk dim1 dim2 orient).getD c d =
      if msk.getD c 0 ≠ 0 then (layout_rank msk dim1 dim2 orient c : Int)
      else -1 := by
  unfold build_inds
  rw [List.getD_eq_getElem _ _ (by simpa using hc)]
  simp [hc]

/-- The number of nonnegative entries of the built index array is the
number of active nodes. -/
theorem build_inds_countP (msk : List Nat) (dim1 dim2 orient : Nat) :
    (build_inds msk dim1 dim2 orient).countP (fun e => decide (0 ≤ e)) =
      layout_count msk dim1 dim2 := by
  unfold build_inds layout_count
  rw [List.countP_map, ← countP_range_eq_card_filter]
  apply List.countP_congr
  intro c hc
  simp only [Function.comp_apply, decide_eq_true_eq]
  by_cases h : msk.getD c 0 ≠ 0
  · rw [if_pos h]
    exact iff_of_true (by positivity) h
  · rw [if_neg h]
    exact iff_of_false (by norm_num) h

/-- C7: for every grid with `dim1, dim2 ≥ 1`, byte mask of `dim1·dim2`
entries and orientation, `tao_indexed_layout_build` returns `n ≥ 0` and
`tao_indexed_layout_check` on the built index array returns the same `n`,
where `n` is the number of active nodes, every active index lies in
`[0, n)` and inactive entries are `−1`. -/
theorem C7_build_then_check_same_count (msk : List Nat)
    (dim1 dim2 orient : Nat) (h1 : 1 ≤ dim1) (h2 : 1 ≤ dim2)
    (hlen : msk.length = dim1 * dim2) :
    0 ≤ (tao_indexed_layout_build msk dim1 dim2 orient).1 ∧
    tao_indexed_layout_check
        (tao_indexed_layout_build msk dim1 dim2 orient).2 dim1 dim2 =
      (tao_indexed_layout_build msk dim1 dim2 orient).1 ∧
    (tao_indexed_layout_build msk dim1 dim2 orient).1 =
      (layout_count msk dim1 dim2 : Int) ∧
    (∀ c, c < dim1 * dim2 →
      (msk.getD c 0 ≠ 0 →
        (0:Int) ≤
          (tao_indexed_layout_build msk dim1 dim2 orient).2.getD c (-2) ∧
        (tao_indexed_layout_build msk dim1 dim2 orient).2.getD c (-2) <
          (tao_indexed_layout_build msk dim1 dim2 orient).1) ∧
      (msk.getD c 0 = 0 →
        (tao_indexed_layout_build msk dim1 dim2 orient).2.getD c (-2) =
          -1)) := by
  have hguard : ¬(dim1 < 1 ∨ dim2 < 1) := by omega
  have hfst : (tao_indexed_layout_build msk dim1 dim2 orient).1 =
      (layout_count msk dim1 dim2 : Int) := by
    unfold tao_indexed_layout_build
    rw [if_neg hguard]
  have hsnd : (tao_indexed_layout_build msk dim1 dim2 orient).2 =
      build_inds msk dim1 dim2 orient := by
    unfold tao_indexed_layout_build
    rw [if_neg hguard]
  rw [hfst, hsnd]
  have hblen : (build_inds msk dim1 dim2 orient).length = dim1 * dim2 := by
    simp [build_inds]
  have hval : (build_inds msk dim1 dim2 orient).all (fun e => decide
      (e = -1 ∨ (0 ≤ e ∧ e < ((build_inds msk dim1 dim2 orient).countP
        (fun e2 => decide (0 ≤ e2)) : Int)))) = true := by
    rw [List.all_eq_true]
    intro e he
    rw [decide_eq_true_eq, build_inds_countP]
    unfold build_inds at he
    obtain ⟨c, hc, rfl⟩ := List.mem_map.mp he
    rw [List.mem_range] at hc
    by_cases h : msk.getD c 0 ≠ 0
    · rw [if_pos h]
      refine Or.inr ⟨by positivity, ?_⟩
      exact_mod_cast layout_rank_lt msk dim1 dim2 orient c hc h
    · rw [if_neg h]
      exact Or.inl rfl
  refine ⟨by positivity, ?_, rfl, ?_⟩
  · unfold tao_indexed_layout_check
    rw [if_neg (by omega), if_pos hval, build_inds_countP]
  · intro c hc
    rw [build_inds_getD msk dim1 dim2 orient c hc]
    constructor
    · intro hact
      rw [if_pos hact]
      refine ⟨by positivity, ?_⟩
      exact_mod_cast layout_rank_lt msk dim1 dim2 orient c hc hact
    · intro hina
      rw [if_neg (fun hne => hne hina)]

/-- Witness for C7 at a concrete input: a `2 × 2` grid with mask
`[1, 0, 1, 1]` (three active nodes), orientation 3. -/
theorem C7_build_then_check_same_count_witness :
    (1:Nat) ≤ 2 ∧ ([1, 0, 1, 1] : List Nat).length = 2 * 2 ∧
    (0 ≤ (tao_indexed_layout_build [1, 0, 1, 1] 2 2 3).1 ∧
     tao_indexed_layout_check
         (tao_indexed_layout_build [1, 0, 1, 1] 2 2 3).2 2 2 =
       (tao_indexed_layout_build [1, 0, 1, 1] 2 2 3).1 ∧
     (tao_indexed_layout_build [1, 0, 1, 1] 2 2 3).1 =
       (layout_count [1, 0, 1, 1] 2 2 : Int) ∧
     (∀ c, c < 2 * 2 →
       (([1, 0, 1, 1] : List Nat).getD c 0 ≠ 0 →
         (0:Int) ≤
           (tao_indexed_layout_build [1, 0, 1, 1] 2 2 3).2.getD c (-2) ∧
         (tao_indexed_layout_build [1, 0, 1, 1] 2 2 3).2.getD c (-2) <
           (tao_indexed_layout_build [1, 0, 1, 1] 2 2 3).1) ∧
       (([1, 0, 1, 1] : List Nat).getD c 0 = 0 →
         (tao_indexed_layout_build [1, 0, 1, 1] 2 2 3).2.getD c (-2) =
           -1))) :=
  ⟨by norm_num, by norm_num,
    C7_build_then_check_same_count [1, 0, 1, 1] 2 2 3 (by norm_num)
      (by norm_num) (by norm_num)⟩

/-- The centring figure of merit of `tao_layout_mask_instantiate`, from the
formula in its doc in `tao-layouts.h`, written for the 1-based coordinates
`i = c % dim1 + 1`, `j = c / dim1 + 1` of the column-major cell `c`:
`f(i, j) = (dim1 + 1 − i)·i + (dim2 + 1 − j)·j`. -/
def mask_fom (dim1 dim2 c : Nat) : Nat :=
  (dim1 + 1 - (c % dim1 + 1)) * (c % dim1 + 1) +
    (dim2 + 1 - (c / dim1 + 1)) * (c / dim1 + 1)

/-- Number of grid cells whose figure of merit is at or above threshold
`t`. -/
def fom_count (dim1 dim2 t : Nat) : Nat :=
  ((Finset.range (dim1 * dim2)).filter
    (fun c => t ≤ mask_fom dim1 dim2 c)).card

/-- The search loop of `tao_layout_mask_instantiate`: starting from the
minimal value of the figure of merit, raise the integer threshold until
the count of cells at or above it no longer exceeds the requested number
of active nodes (`fuel` bounds the search). -/
def fom_search (dim1 dim2 nacts : Nat) : Nat → Nat → Nat
  | 0, t => t
  | fuel + 1, t =>
      if fom_count dim1 dim2 t ≤ nacts then t
      else fom_search dim1 dim2 nacts fuel (t + 1)

/-- A bound above every value of the figure of merit. -/
def fom_bound (dim1 dim2 : Nat) : Nat :=
  (dim1 + 1) * (dim1 + 1) + (dim2 + 1) * (dim2 + 1)

/-- Modelled from the spec: the body of `tao_layout_mask_instantiate` is
not in `src/`.  Per its header doc: the threshold starts at the corner
value `fmin = dim1 + dim2` and is raised until the count of cells at or
above it matches the requested number of active nodes; when the search
overshoots (no exact match), the previous threshold — the one still giving
at least the requested number of nodes — is used. -/
def instantiate_threshold (dim1 dim2 nacts : Nat) : Nat :=
  let t := fom_search dim1 dim2 nacts (fom_bound dim1 dim2 + 2) (dim1 + dim2)
  if fom_count dim1 dim2 t < nacts then t - 1 else t

/-- Modelled from the spec: the mask has a `1` exactly at the cells whose
figure of merit is at or above the selected threshold. -/
def tao_layout_mask_instantiate (dim1 dim2 nacts : Nat) : List Nat :=
  (List.range (dim1 * dim2)).map fun c =>
    if instantiate_threshold dim1 dim2 nacts ≤ mask_fom dim1 dim2 c then 1
    else 0

/-- The count of cells at or above a threshold is antitone in the
threshold. -/
theorem fom_count_antitone (dim1 dim2 : Nat) {t u : Nat} (h : t ≤ u) :
    fom_count dim1 dim2 u ≤ fom_count dim1 dim2 t := by
  apply Finset.card_le_card
  intro c hc
  rw [Finset.mem_filter] at hc ⊢
  exact ⟨hc.1, le_trans h hc.2⟩

/-- For positive naturals, `a + b ≤ a·b + 1`. -/
theorem add_le_mul_succ (a b : Nat) (ha : 1 ≤ a) (hb : 1 ≤ b) :
    a + b ≤ a * b + 1 := by
  obtain ⟨x, rfl⟩ := Nat.exists_eq_add_of_le ha
  obtain ⟨y, rfl⟩ := Nat.exists_eq_add_of_le hb
  have h : (1 + x) * (1 + y) = 1 + x + y + x * y := by ring
  omega

/-- One axis of the figure of merit is at least the axis length. -/
theorem axis_fom_lower (d i : Nat) (hd : 1 ≤ d) (hi : i < d) :
    d ≤ (d + 1 - (i + 1)) * (i + 1) := by
  have hx := add_le_mul_succ (d + 1 - (i + 1)) (i + 1) (by omega) (by omega)
  omega

/-- One axis of the figure of merit is at most `(d + 1)²`. -/
theorem axis_fom_upper (d i : Nat) (hi : i < d) :
    (d + 1 - (i + 1)) * (i + 1) ≤ (d + 1) * (d + 1) :=
  Nat.mul_le_mul (by omega) (by omega)

/-- Every grid cell has figure of merit at least `dim1 + dim2` (the corner
value `fmin` of the header doc). -/
theorem mask_fom_lower (dim1 dim2 c : Nat) (h1 : 1 ≤ dim1)
    (h2 : 1 ≤ dim2) (hc : c < dim1 * dim2) :
    dim1 + dim2 ≤ mask_fom dim1 dim2 c := by
  have hi : c % dim1 < dim1 := Nat.mod_lt _ (by omega)
  have hj : c / dim1 < dim2 := Nat.div_lt_of_lt_mul hc
  unfold mask_fom
  exact add_le_add (axis_fom_lower dim1 (c % dim1) h1 hi)
    (axis_fom_lower dim2 (c / dim1) h2 hj)

/-- Every grid cell has figure of merit at most `fom_bound`. -/
theorem mask_fom_upper (dim1 dim2 c : Nat) (h1 : 1 ≤ dim1)
    (h2 : 1 ≤ dim2) (hc : c < dim1 * dim2) :
    mask_fom dim1 dim2 c ≤ fom_bound dim1 dim2 := by
  have hi : c % dim1 < dim1 := Nat.mod_lt _ (by omega)
  have hj : c / dim1 < dim2 := Nat.div_lt_of_lt_mul hc
  unfold mask_fom fom_bound
  exact add_le_add (axis_fom_upper dim1 (c % dim1) hi)
    (axis_fom_upper dim2 (c / dim1) hj)

/-- At the corner threshold the whole grid is counted. -/
theorem fom_count_at_min (dim1 dim2 : Nat) (h1 : 1 ≤ dim1)
    (h2 : 1 ≤ dim2) :
    fom_count dim1 dim2 (dim1 + dim2) = dim1 * dim2 := by
  unfold fom_count
  rw [Finset.filter_true_of_mem, Finset.card_range]
  intro c hc
  exact mask_fom_lower dim1 dim2 c h1 h2 (Finset.mem_range.mp hc)

/-- Above the bound no cell is counted. -/
theorem fom_count_past_bound (dim1 dim2 : Nat) (h1 : 1 ≤ dim1)
    (h2 : 1 ≤ dim2) :
    fom_count dim1 dim2 (fom_bound dim1 dim2 + 1) = 0 := by
  unfold fom_count
  rw [Finset.card_eq_zero, Finset.filter_eq_empty_iff]
  intro c hc
  have := mask_fom_upper dim1 dim2 c h1 h2 (Finset.mem_range.mp hc)
  omega

/-- Specification of the search loop: provided a stopping threshold exists
within the fuel, the result is the first threshold at or after the start
whose count does not exceed the requested number of nodes. -/
theorem fom_search_spec (dim1 dim2 nacts : Nat) (fuel t : Nat)
    (hstop : ∃ u, t ≤ u ∧ u < t + fuel ∧
      fom_count dim1 dim2 u ≤ nacts) :
    t ≤ fom_search dim1 dim2 nacts fuel t ∧
    fom_count dim1 dim2 (fom_search dim1 dim2 nacts fuel t) ≤ nacts ∧
    (∀ u, t ≤ u → u < fom_search dim1 dim2 nacts fuel t →
      nacts < fom_count dim1 dim2 u) := by
  induction fuel generalizing t with
  | zero =>
      obtain ⟨u, hu1, hu2, _⟩ := hstop
      exact absurd hu2 (by omega)
  | succ fuel ih =>
      by_cases h : fom_count dim1 dim2 t ≤ nacts
      · have heq : fom_search dim1 dim2 nacts (fuel + 1) t = t := by
          simp only [fom_search]
          rw [if_pos h]
        rw [heq]
        exact ⟨le_refl _, h, fun u hu1 hu2 => absurd hu1 (by omega)⟩
      · have heq : fom_search dim1 dim2 nacts (fuel + 1) t =
            fom_search dim1 dim2 nacts fuel (t + 1) := by
          simp only [fom_search]
          rw [if_neg h]
        rw [heq]
        have hstop2 : ∃ u, t + 1 ≤ u ∧ u < t + 1 + fuel ∧
            fom_count dim1 dim2 u ≤ nacts := by
          obtain ⟨u, hu1, hu2, hu3⟩ := hstop
          refine ⟨u, ?_, by omega, hu3⟩
          rcases Nat.eq_or_lt_of_le hu1 with rfl | hgt
          · exact absurd hu3 h
          · omega
        obtain ⟨ha, hb, hc⟩ := ih (t + 1) hstop2
        refine ⟨by omega, hb, fun u hu1 hu2 => ?_⟩
        rcases Nat.eq_or_lt_of_le hu1 with rfl | hgt
        · omega
        · exact hc u (by omega) hu2

/-- The selected threshold gives at least the requested number of active
nodes, and its count is minimal among the counts, achievable by any
threshold, that are at least the requested number. -/
theorem instantiate_threshold_spec (dim1 dim2 nacts : Nat)
    (h1 : 1 ≤ dim1) (h2 : 1 ≤ dim2) (hn : nacts ≤ dim1 * dim2) :
    nacts ≤ fom_count dim1 dim2 (instantiate_threshold dim1 dim2 nacts) ∧
    (∀ u, nacts ≤ fom_count dim1 dim2 u →
      fom_count dim1 dim2 (instantiate_threshold dim1 dim2 nacts) ≤
        fom_count dim1 dim2 u) := by
  have hstop : ∃ u, dim1 + dim2 ≤ u ∧
      u < dim1 + dim2 + (fom_bound dim1 dim2 + 2) ∧
      fom_count dim1 dim2 u ≤ nacts := by
    refine ⟨fom_bound dim1 dim2 + 1, ?_, by omega, ?_⟩
    · have ha : dim1 + 1 ≤ (dim1 + 1) * (dim1 + 1) :=
        Nat.le_mul_of_pos_left _ (by omega)
      have hb : dim2 + 1 ≤ (dim2 + 1) * (dim2 + 1) :=
        Nat.le_mul_of_pos_left _ (by omega)
      unfold fom_bound
      omega
    · rw [fom_count_past_bound dim1 dim2 h1 h2]
      omega
  obtain ⟨hta, htb, htc⟩ :=
    fom_search_spec dim1 dim2 nacts (fom_bound dim1 dim2 + 2)
      (dim1 + dim2) hstop
  have hTdef : instantiate_threshold dim1 dim2 nacts =
      if fom_count dim1 dim2 (fom_search dim1 dim2 nacts
          (fom_bound dim1 dim2 + 2) (dim1 + dim2)) < nacts then
        fom_search dim1 dim2 nacts (fom_bound dim1 dim2 + 2)
          (dim1 + dim2) - 1
      else fom_search dim1 dim2 nacts (fom_bound dim1 dim2 + 2)
        (dim1 + dim2) := rfl
  by_cases hlt : fom_count dim1 dim2 (fom_search dim1 dim2 nacts
      (fom_bound dim1 dim2 + 2) (dim1 + dim2)) < nacts
  · rw [hTdef, if_pos hlt]
    have htgt : dim1 + dim2 < fom_search dim1 dim2 nacts
        (fom_bound dim1 dim2 + 2) (dim1 + dim2) := by
      rcases Nat.eq_or_lt_of_le hta with heq | hgt
      · exfalso
        rw [← heq, fom_count_at_min dim1 dim2 h1 h2] at hlt
        omega
      · exact hgt
    have hT : nacts < fom_count dim1 dim2 (fom_search dim1 dim2 nacts
        (fom_bound dim1 dim2 + 2) (dim1 + dim2) - 1) :=
      htc _ (by omega) (by omega)
    refine ⟨by omega, fun u hu => ?_⟩
    by_cases hcmp : u ≤ fom_search dim1 dim2 nacts
        (fom_bound dim1 dim2 + 2) (dim1 + dim2) - 1
    · exact fom_count_antitone dim1 dim2 hcmp
    · have := fom_count_antitone dim1 dim2
        (show fom_search dim1 dim2 nacts (fom_bound dim1 dim2 + 2)
          (dim1 + dim2) ≤ u by omega)
      omega
  · rw [hTdef, if_neg hlt]
    exact ⟨by omega, fun u hu => by omega⟩

/-- Entry `c` of the instantiated mask. -/
theorem mask_instantiate_getD (dim1 dim2 nacts c : Nat)
    (hc : c < dim1 * dim2) (d : Nat) :
    (tao_layout_mask_instantiate dim1 dim2 nacts).getD c d =
      if instantiate_threshold dim1 dim2 nacts ≤ mask_fom dim1 dim2 c
      then 1 else 0 := by
  unfold tao_layout_mask_instantiate
  rw [List.getD_eq_getElem _ _ (by simpa using hc)]
  simp [hc]

/-- The number of active entries of the instantiated mask is the count at
the selected threshold. -/
theorem mask_instantiate_countP (dim1 dim2 nacts : Nat) :
    (tao_layout_mask_instantiate dim1 dim2 nacts).countP
        (fun e => decide (e ≠ 0)) =
      fom_count dim1 dim2 (instantiate_threshold dim1 dim2 nacts) := by
  unfold tao_layout_mask_instantiate fom_count
  rw [List.countP_map, ← countP_range_eq_card_filter]
  apply List.countP_congr
  intro c hc
  simp only [Function.comp_apply, decide_eq_true_eq]
  by_cases h : instantiate_threshold dim1 dim2 nacts ≤ mask_fom dim1 dim2 c
  · rw [if_pos h]
    exact iff_of_true (by omega) h
  · rw [if_neg h]
    exact iff_of_false (by omega) h

/-- C8: for `dim1, dim2 ≥ 1` and `0 ≤ nacts ≤ dim1·dim2`, the mask built
by `tao_layout_mask_instantiate` is exactly the super-level set of
`f(i, j) = (dim1 + 1 − i)·i + (dim2 + 1 − j)·j` at the selected integer
threshold; it has at least `nacts` active nodes; its number of active
nodes is minimal among the threshold counts that reach `nacts` — in
particular, whenever some threshold gives exactly `nacts` nodes, the mask
has exactly `nacts` active nodes. -/
theorem C8_mask_instantiate_centred_threshold (dim1 dim2 nacts : Nat)
    (h1 : 1 ≤ dim1) (h2 : 1 ≤ dim2) (hn : nacts ≤ dim1 * dim2) :
    (tao_layout_mask_instantiate dim1 dim2 nacts).length = dim1 * dim2 ∧
    (∀ c, c < dim1 * dim2 →
      ((tao_layout_mask_instantiate dim1 dim2 nacts).getD c 0 ≠ 0 ↔
        instantiate_threshold dim1 dim2 nacts ≤ mask_fom dim1 dim2 c)) ∧
    (tao_layout_mask_instantiate dim1 dim2 nacts).countP
        (fun e => decide (e ≠ 0)) =
      fom_count dim1 dim2 (instantiate_threshold dim1 dim2 nacts) ∧
    nacts ≤ (tao_layout_mask_instantiate dim1 dim2 nacts).countP
      (fun e => decide (e ≠ 0)) ∧
    (∀ u, nacts ≤ fom_count dim1 dim2 u →
      (tao_layout_mask_instantiate dim1 dim2 nacts).countP
          (fun e => decide (e ≠ 0)) ≤ fom_count dim1 dim2 u) ∧
    (∀ u, fom_count dim1 dim2 u = nacts →
      (tao_layout_mask_instantiate dim1 dim2 nacts).countP
          (fun e => decide (e ≠ 0)) = nacts) := by
  obtain ⟨hge, hmin⟩ := instantiate_threshold_spec dim1 dim2 nacts h1 h2 hn
  have hcnt := mask_instantiate_countP dim1 dim2 nacts
  refine ⟨by simp [tao_layout_mask_instantiate], ?_, hcnt, ?_, ?_, ?_⟩
  · intro c hc
    rw [mask_instantiate_getD dim1 dim2 nacts c hc]
    by_cases h : instantiate_threshold dim1 dim2 nacts ≤ mask_fom dim1 dim2 c
    · rw [if_pos h]
      exact iff_of_true (by omega) h
    · rw [if_neg h]
      exact iff_of_false (by omega) h
  · omega
  · intro u hu
    have := hmin u hu
    omega
  · intro u hu
    have ha := hmin u (by omega)
    omega

/-- Witness for C8 at a concrete input: a `3 × 3` grid with 4 requested
nodes (no exact threshold match exists for 4 on this grid; the selected
threshold keeps at least 4 nodes, minimally). -/
theorem C8_mask_instantiate_centred_threshold_witness :
    (1:Nat) ≤ 3 ∧ (4:Nat) ≤ 3 * 3 ∧
    ((tao_layout_mask_instantiate 3 3 4).length = 3 * 3 ∧
     (∀ c, c < 3 * 3 →
       ((tao_layout_mask_instantiate 3 3 4).getD c 0 ≠ 0 ↔
         instantiate_threshold 3 3 4 ≤ mask_fom 3 3 c)) ∧
     (tao_layout_mask_instantiate 3 3 4).countP (fun e => decide (e ≠ 0)) =
       fom_count 3 3 (instantiate_threshold 3 3 4) ∧
     (4:Nat) ≤ (tao_layout_mask_instantiate 3 3 4).countP
       (fun e => decide (e ≠ 0)) ∧
     (∀ u, 4 ≤ fom_count 3 3 u →
       (tao_layout_mask_instantiate 3 3 4).countP
           (fun e => decide (e ≠ 0)) ≤ fom_count 3 3 u) ∧
     (∀ u, fom_count 3 3 u = 4 →
       (tao_layout_mask_instantiate 3 3 4).countP
           (fun e => decide (e ≠ 0)) = 4)) :=
  ⟨by norm_num, by norm_num,
    C8_mask_instantiate_centred_threshold 3 3 4 (by norm_num) (by norm_num)
      (by norm_num)⟩

end Tao

namespace Tao

/-- C9: for every non-NULL remote object, `tao_remote_object_is_alive` (and
the per-family variants, here the remote-mirror one) returns true if and
only if the object's state is strictly less than `TAO_STATE_UNREACHABLE`;
for a NULL pointer it returns false. -/
theorem C9_is_alive_iff_state_lt_unreachable :
    (∀ o : RemoteObject,
      tao_remote_object_is_alive (.some o) = true ↔
        o.state.code < TAO_STATE_UNREACHABLE) ∧
    (∀ m : RemoteMirror,
      tao_remote_mirror_is_alive (.some m) = true ↔
        m.base.state.code < TAO_STATE_UNREACHABLE) ∧
    tao_remote_object_is_alive .none = false ∧
    tao_remote_mirror_is_alive .none = false := by
  refine ⟨fun o => ?_, fun m => ?_, rfl, rfl⟩ <;>
    simp [tao_remote_object_is_alive, tao_remote_mirror_is_alive]

/-- C10: every public getter of the shared/remote object families is
defined on a NULL object and returns the documented default (0 for sizes,
counters and serials, the empty string for the owner, `TAO_BAD_SHMID` for
shared-memory identifiers, `TAO_STATE_UNREACHABLE` for the state, NaN for
the command bounds), and — NULL or not — leaves the caller's last-error
record unchanged. -/
theorem C10_getters_null_defaults_and_error_untouched :
    (∀ e, tao_remote_object_get_size .none e = (0, e)) ∧
    (∀ e, tao_remote_object_get_type .none e = (0, e)) ∧
    (∀ e, tao_shared_object_get_shmid .none e = (TAO_BAD_SHMID, e)) ∧
    (∀ e, tao_remote_object_get_owner .none e = ("", e)) ∧
    (∀ e, tao_remote_object_get_nbufs .none e = (0, e)) ∧
    (∀ e, tao_remote_object_get_serial .none e = (0, e)) ∧
    (∀ e, tao_remote_object_get_ncmds .none e = (0, e)) ∧
    (∀ e, tao_remote_object_get_state .none e = (State.unreachable, e)) ∧
    (∀ e, tao_remote_mirror_get_cmin .none e = (FloatVal.nan, e)) ∧
    (∀ e, tao_remote_mirror_get_cmax .none e = (FloatVal.nan, e)) ∧
    (∀ obj e,
      (tao_remote_object_get_size obj e).2 = e ∧
      (tao_remote_object_get_type obj e).2 = e ∧
      (tao_shared_object_get_shmid obj e).2 = e ∧
      (tao_remote_object_get_owner obj e).2 = e ∧
      (tao_remote_object_get_nbufs obj e).2 = e ∧
      (tao_remote_object_get_serial obj e).2 = e ∧
      (tao_remote_object_get_ncmds obj e).2 = e ∧
      (tao_remote_object_get_state obj e).2 = e) ∧
    (∀ obj e,
      (tao_remote_mirror_get_cmin obj e).2 = e ∧
      (tao_remote_mirror_get_cmax obj e).2 = e) := by
  refine ⟨fun e => rfl, fun e => rfl, fun e => rfl, fun e => rfl, fun e => rfl,
    fun e => rfl, fun e => rfl, fun e => rfl, fun e => rfl, fun e => rfl,
    fun obj e => ⟨rfl, rfl, rfl, rfl, rfl, rfl, rfl, rfl⟩,
    fun obj e => ⟨rfl, rfl⟩⟩

end Tao
